import Mathlib

/-!
Verification of the constellation per-process runtime (`src/lib.rs`) against
its natural-language specification.

The Rust source is shallowly embedded: the global once-cells (`PID`, `BRIDGE`,
`DEPLOYED`, `RESOURCES`, `REACTOR`) become an explicit `GlobalState` record,
panics become the `PanicOr` sum, and the external world (fork outcome, the
scheduler reply, bytes arriving on channels) is passed in as explicit data.
Parts of the repository that are referenced from `lib.rs` but whose source is
not under `src/` (the `channel` module and `constellation_internal`) are
modelled from the specification text; each such definition says so in its
doc comment.
-/

namespace Constellation

/-- Result of running a piece of Rust code that may panic: either a panic with
its message, or a normal value. -/
inductive PanicOr (α : Type) where
  | panic (msg : String)
  | ok (val : α)
deriving DecidableEq

/-- Whether a `PanicOr` is a panic. -/
def PanicOr.isPanic {α : Type} : PanicOr α → Bool
  | .panic _ => true
  | .ok _ => false

/-- A process identifier: an (IP address, port) pair naming the listener of the
process (`constellation_internal::Pid`, fields as in the spec data model). -/
structure Pid where
  ip : Nat
  port : Nat
deriving DecidableEq

/-- `Pid::addr()`: the socket address to dial to reach this process. -/
def Pid.addr (p : Pid) : Nat × Nat := (p.ip, p.port)

/-- Resources record attached to spawn requests: memory bytes and CPU share
(`constellation_internal::Resources`, fields as in the spec data model). -/
structure Resources where
  mem : Nat
  cpu : Nat
deriving DecidableEq

/-- Modelled from the spec: the reactor-side registry of live channel
endpoints, keyed by remote address, one per direction.  The channel module is
not under `src/`; the spec states the invariant "at most one live endpoint per
`(local_pid, remote_pid, direction)` identity in a process". -/
structure ReactorState where
  senders : List (Nat × Nat)
  receivers : List (Nat × Nat)
deriving DecidableEq

/-- The write-once global per-process state of `lib.rs`: the once-cells `PID`,
`BRIDGE`, `DEPLOYED`, `RESOURCES` and the `REACTOR` slot.  `none` means the
cell has not been set by `init()`. -/
structure GlobalState where
  pid : Option Pid
  bridge : Option Pid
  deployed : Option Bool
  resources : Option Resources
  reactor : Option ReactorState
deriving DecidableEq

/-- The panic message used throughout `lib.rs` when a runtime API is called
before `init()` has run. -/
def initPanicMsg : String :=
  "You must call init() immediately inside your application\x27s main() function"

/-- Panic message of `Sender::new` when called with the process\x27s own pid
(the Rust message also interpolates the type name, elided here). -/
def senderSelfMsg : String :=
  "Sender::new() called with process\x27s own pid. A process cannot create a channel to itself."

/-- Panic message of `Sender::new` when a Sender to the remote already exists
(the Rust message also interpolates the type name and pid, elided here). -/
def senderExistsMsg : String :=
  "Sender::new() called for pid when a Sender to this pid already exists"

/-- Panic message of `Receiver::new` when called with the process\x27s own pid. -/
def receiverSelfMsg : String :=
  "Receiver::new() called with process\x27s own pid. A process cannot create a channel to itself."

/-- Panic message of `Receiver::new` when a Receiver to the remote already exists. -/
def receiverExistsMsg : String :=
  "Receiver::new() called for pid when a Receiver to this pid already exists"

/-- `pid()` from `lib.rs`: returns the contents of the `PID` once-cell, and
panics with the init message when it is unset. -/
def pid (st : GlobalState) : PanicOr Pid :=
  match st.pid with
  | none => .panic initPanicMsg
  | some p => .ok p

/-- `resources()` from `lib.rs`: returns the contents of the `RESOURCES`
once-cell, and panics with the init message when it is unset. -/
def resources (st : GlobalState) : PanicOr Resources :=
  match st.resources with
  | none => .panic initPanicMsg
  | some r => .ok r

/-- The inner sending endpoint held by `Sender` (from the channel module). -/
structure ChannelSender where
  addr : Nat × Nat
deriving DecidableEq

/-- The inner receiving endpoint held by `Receiver` (from the channel module). -/
structure ChannelReceiver where
  addr : Nat × Nat
deriving DecidableEq

/-- Modelled from the spec: `channel::Sender::new(addr, reactor)` from the
channel module, which is not under `src/`.  Per the spec, creating a Sender
fails "if a Sender to `remote` already exists"; the channel layer reports this
by returning `None` (which `lib.rs` turns into a panic), otherwise it registers
the new endpoint with the reactor and returns it. -/
def ChannelSender.new (addr : Nat × Nat) (r : ReactorState) :
    Option (ChannelSender × ReactorState) :=
  if addr ∈ r.senders then none
  else some (⟨addr⟩, { r with senders := addr :: r.senders })

/-- Modelled from the spec: `channel::Receiver::new(addr, reactor)` from the
channel module, which is not under `src/`; symmetric to `ChannelSender.new`. -/
def ChannelReceiver.new (addr : Nat × Nat) (r : ReactorState) :
    Option (ChannelReceiver × ReactorState) :=
  if addr ∈ r.receivers then none
  else some (⟨addr⟩, { r with receivers := addr :: r.receivers })

/-- The public `Sender<T>` handle of `lib.rs`: the channel endpoint together
with the remote pid (the Rust struct is `Sender(Option<channel::Sender<T>>, Pid)`). -/
structure Sender where
  chan : ChannelSender
  pidRemote : Pid
deriving DecidableEq

/-- `Sender::remote_pid()`: the pid of the remote end (field 1 of the struct). -/
def Sender.remote_pid (s : Sender) : Pid := s.pidRemote

/-- The public `Receiver<T>` handle of `lib.rs`. -/
structure Receiver where
  chan : ChannelReceiver
  pidRemote : Pid
deriving DecidableEq

/-- `Receiver::remote_pid()`: the pid of the remote end. -/
def Receiver.remote_pid (r : Receiver) : Pid := r.pidRemote

/-- `Sender::<T>::new(remote)` from `lib.rs`.  It first evaluates
`remote == pid()` (which itself panics with the init message when `PID` is
unset), panics if the pids are equal, then reads the `REACTOR` cell (panicking
with the init message when it is unset), and finally calls
`channel::Sender::new`, panicking if that returns `None` because a Sender to
the remote already exists. -/
def Sender.new (remote : Pid) (st : GlobalState) : PanicOr (Sender × GlobalState) :=
  match st.pid with
  | none => .panic initPanicMsg
  | some self =>
    if remote = self then .panic senderSelfMsg
    else
      match st.reactor with
      | none => .panic initPanicMsg
      | some r =>
        match ChannelSender.new remote.addr r with
        | some (cs, r2) => .ok (⟨cs, remote⟩, { st with reactor := some r2 })
        | none => .panic senderExistsMsg

/-- `Receiver::<T>::new(remote)` from `lib.rs`; symmetric to `Sender.new`. -/
def Receiver.new (remote : Pid) (st : GlobalState) : PanicOr (Receiver × GlobalState) :=
  match st.pid with
  | none => .panic initPanicMsg
  | some self =>
    if remote = self then .panic receiverSelfMsg
    else
      match st.reactor with
      | none => .panic initPanicMsg
      | some r =>
        match ChannelReceiver.new remote.addr r with
        | some (cr, r2) => .ok (⟨cr, remote⟩, { st with reactor := some r2 })
        | none => .panic receiverExistsMsg

/-- Modelled from the spec: `ExitStatus` from `constellation_internal` (not
under `src/`): a child process either exited successfully or carries a
non-success status (exit code or signal, collapsed to a code here). -/
inductive ExitStatus where
  | success
  | failure (code : Nat)
deriving DecidableEq

/-- Modelled from the spec: the `+=` aggregation on `ExitStatus` from
`constellation_internal` (not under `src/`): "success iff all successes;
otherwise the first non-success by arrival order", so an already non-success
accumulator absorbs later statuses. -/
def ExitStatus.add (a b : ExitStatus) : ExitStatus :=
  match a with
  | .success => b
  | .failure c => .failure c

/-- `ProcessOutputEvent` (monitor/worker to bridge): a spawn notification,
forwarded output bytes of a worker fd, or the final exit status. -/
inductive ProcessOutputEvent where
  | spawnEv (newPid : Pid)
  | outputEv (fd : Nat) (bytes : List Nat)
  | exitEv (code : ExitStatus)
deriving DecidableEq

/-- `ProcessInputEvent` (bridge to monitor): input bytes for a worker fd, or a
kill request. -/
inductive ProcessInputEvent where
  | input (fd : Nat) (bytes : List Nat)
  | kill
deriving DecidableEq

/-- Modelled from the spec: `TrySpawnError` from `constellation_internal` (not
under `src/`): the scheduler cannot allocate now, or fork/exec or fabric-side
launch failed. -/
inductive TrySpawnError where
  | noCapacity
  | execFailed
deriving DecidableEq

/-- Modelled from the spec: `SpawnError` from `constellation_internal` (not
under `src/`): "the blocking variant of TrySpawnError with no-capacity folded
into a retry-until-success", i.e. `TrySpawnError` without the no-capacity case. -/
inductive SpawnError where
  | execFailed
deriving DecidableEq

/-- Modelled from the spec: the `TryInto<SpawnError>` conversion on
`TrySpawnError` used by `spawn` (`err.try_into().unwrap()`); it has no image
for the no-capacity case, which `SpawnError` lacks. -/
def TrySpawnError.intoSpawnError : TrySpawnError → Option SpawnError
  | .noCapacity => none
  | .execFailed => some .execFailed

/-- Panic message of `Result::unwrap` applied to the failed
`TrySpawnError -> SpawnError` conversion inside `spawn`. -/
def unwrapErrMsg : String := "called unwrap() on an Err value"

/-- Modelled from the spec: the JSON serialization of a `Resources` record as
produced by `serde_json::to_string` (the `Serialize` impl lives in
`constellation_internal`, not under `src/`). -/
def resourcesJson (r : Resources) : String :=
  "\x7b\"mem\":" ++ toString r.mem ++ ",\"cpu\":" ++ toString r.cpu ++ "\x7d"

/-- Formatting of one environment entry as the `key=value` C string that
`spawn_native` passes to `execve`. -/
def formatVar (kv : String × String) : String := kv.1 ++ "=" ++ kv.2

/-- The environment-variable list that `spawn_native` builds for the child:
the parent\x27s environment entries filtered to drop any
`CONSTELLATION_RESOURCES` entry, chained with a single fresh
`CONSTELLATION_RESOURCES` entry holding the JSON of the requested resources,
each entry then formatted as `key=value`. -/
def spawnVars (envv : List (String × String)) (res : Resources) : List String :=
  ((envv.filter fun kv => kv.1 ≠ "CONSTELLATION_RESOURCES")
      ++ [("CONSTELLATION_RESOURCES", resourcesJson res)]).map formatVar

/-- The external facts the native spawn path depends on: the parent\x27s argv
and environment, whether `fork` succeeds, and the pid allocated by
`native_process_listener` for the child. -/
structure NativeWorld where
  argv : List String
  envv : List (String × String)
  forkOk : Bool
  newPid : Pid
deriving DecidableEq

/-- The `execve` call performed in the forked child: argument vector and
environment vector. -/
structure ExecCall where
  args : List String
  vars : List String
deriving DecidableEq

/-- The `FabricRequest` frame sent to the scheduler by `spawn_deployed`
(binary blob and distributed-binary fields elided). -/
structure FabricRequest where
  block : Bool
  resources : Resources
  args : List String
  vars : List (String × String)
deriving DecidableEq

/-- The external facts the deployed spawn path depends on: the parent\x27s
argv and environment and the scheduler\x27s reply to a request. -/
structure DeployWorld where
  argv : List String
  envv : List (String × String)
  schedReply : FabricRequest → Except TrySpawnError Pid

/-- Observable outcome of one spawn call: the `ProcessOutputEvent`s serialized
to `MONITOR_FD`, the returned result, the `execve` performed in the child (native
path), and the `FabricRequest` sent to the scheduler (deployed path). -/
structure SpawnOutcome (ε : Type) where
  monitorWrites : List ProcessOutputEvent
  ret : Except ε Pid
  exec : Option ExecCall
  request : Option FabricRequest

/-- `spawn_native(resources, f, _block)` from `lib.rs`.  It builds argv and
the child environment, forks (panicking via `expect` with "Fork failed" when
`fork` fails), has the child `execve` the current executable with that argv and
environment, and in the parent writes a `Spawn(new_pid)` event to `MONITOR_FD`
and returns `Ok(new_pid)`.  The `block` parameter is bound as `_block` in the
source and never used. -/
def spawn_native (res : Resources) (w : NativeWorld) (_block : Bool) :
    PanicOr (SpawnOutcome TrySpawnError) :=
  if w.forkOk then
    .ok { monitorWrites := [.spawnEv w.newPid]
          ret := .ok w.newPid
          exec := some { args := w.argv, vars := spawnVars w.envv res }
          request := none }
  else .panic "Fork failed"

/-- The `FabricRequest` that `spawn_deployed` sends: the `block` flag, the
requested resources, and the parent\x27s argv and environment. -/
def deployRequest (res : Resources) (w : DeployWorld) (block : Bool) : FabricRequest :=
  { block := block, resources := res, args := w.argv, vars := w.envv }

/-- `spawn_deployed(resources, f, block)` from `lib.rs`: send a
`FabricRequest` carrying the `block` flag to the scheduler over `SCHEDULER_FD`,
read back `Result<Pid, TrySpawnError>`, write a `Spawn(pid)` event to
`MONITOR_FD` exactly when the reply is `Ok(pid)`, and return the reply. -/
def spawn_deployed (res : Resources) (w : DeployWorld) (block : Bool) :
    SpawnOutcome TrySpawnError :=
  let reply := w.schedReply (deployRequest res w block)
  { monitorWrites :=
      match reply with
      | .ok p => [.spawnEv p]
      | .error _ => []
    ret := reply
    exec := none
    request := some (deployRequest res w block) }

/-- The external facts a spawn call may depend on, for both paths. -/
structure World where
  native : NativeWorld
  deploy : DeployWorld

/-- `spawn_inner(resources, start, block)` from `lib.rs`: panics with the init
message when the `DEPLOYED` cell is unset, otherwise dispatches on it to
`spawn_native` or `spawn_deployed`, passing `block` through. -/
def spawn_inner (res : Resources) (block : Bool) (deployedOpt : Option Bool)
    (w : World) : PanicOr (SpawnOutcome TrySpawnError) :=
  match deployedOpt with
  | none => .panic initPanicMsg
  | some deployed =>
    if !deployed then spawn_native res w.native block
    else .ok (spawn_deployed res w.deploy block)

/-- `try_spawn(resources, start)` from `lib.rs`: `spawn_inner` with
`block = false`. -/
def try_spawn (res : Resources) (deployedOpt : Option Bool) (w : World) :
    PanicOr (SpawnOutcome TrySpawnError) :=
  spawn_inner res false deployedOpt w

/-- `spawn(resources, start)` from `lib.rs`: `spawn_inner` with `block = true`,
with the error mapped by `err.try_into().unwrap()` into `SpawnError` — an
unwrap that panics when the conversion has no image (the no-capacity case). -/
def spawn (res : Resources) (deployedOpt : Option Bool) (w : World) :
    PanicOr (SpawnOutcome SpawnError) :=
  match spawn_inner res true deployedOpt w with
  | .panic m => .panic m
  | .ok o =>
    match o.ret with
    | .ok p =>
      .ok { monitorWrites := o.monitorWrites, ret := .ok p
            exec := o.exec, request := o.request }
    | .error e =>
      match e.intoSpawnError with
      | none => .panic unwrapErrMsg
      | some e2 =>
        .ok { monitorWrites := o.monitorWrites, ret := .error e2
              exec := o.exec, request := o.request }

/-- The event loop of `native_bridge` from `lib.rs`, driven by the sequence of
events selected from the per-worker receivers, each tagged with the index `i`
of the worker it came from.  While the worker list is non-empty it consumes the
next event: `Spawn(new)` pushes endpoints for the new worker at the end of the
list, `Output` only emits to the formatter, and `Exit(code)` folds the code into
the running aggregate with `+=` and removes worker `i`.  When the worker list
is empty the bridge calls `process::exit` with the aggregate (`some agg`);
`none` means the event sequence ran out while workers remain. -/
def native_bridge_run :
    List (Nat × ProcessOutputEvent) → List Pid → ExitStatus → Option ExitStatus
  | _, [], agg => some agg
  | [], _ :: _, _ => none
  | (i, ev) :: rest, p :: ps, agg =>
    match ev with
    | .spawnEv newPid => native_bridge_run rest (p :: (ps ++ [newPid])) agg
    | .outputEv _ _ => native_bridge_run rest (p :: ps) agg
    | .exitEv code => native_bridge_run rest ((p :: ps).eraseIdx i) (agg.add code)

/-- Output format selected by `CONSTELLATION_FORMAT`. -/
inductive Format where
  | human
  | json
deriving DecidableEq

/-- Modelled from the spec: the already-parsed `Envs` record built by
`constellation_internal::Envs::from` (not under `src/`) from the environment:
`CONSTELLATION_VERSION`, `CONSTELLATION_RECCE` and `CONSTELLATION_FORMAT` as
optional parsed values (`none` when the variable is unset), and whether
`CONSTELLATION_DEPLOY=fabric`. -/
structure Envs where
  version : Option Bool
  recce : Option Bool
  format : Option Format
  deployFabric : Bool
deriving DecidableEq

/-- One little-endian byte of `n` at position `i`. -/
def leByte (n i : Nat) : Nat := n / 256 ^ i % 256

/-- Eight little-endian bytes of a u64. -/
def leBytes8 (n : Nat) : List Nat :=
  [leByte n 0, leByte n 1, leByte n 2, leByte n 3,
   leByte n 4, leByte n 5, leByte n 6, leByte n 7]

/-- Modelled from the spec: the bincode (binary) serialization of a
`Resources` record written by the recce branch (the `Serialize` impl lives in
`constellation_internal`, not under `src/`): the two u64 fields, little-endian. -/
def bincodeResources (r : Resources) : List Nat :=
  leBytes8 r.mem ++ leBytes8 r.cpu

/-- Outcome of the environment-inspection prefix of `init(resources)` in
`lib.rs` (the statements up to the role determination): the process exits with
a code after printing the given stdout lines and writing the given bytes to
file descriptor 3, or panics, or falls through to role setup and the rest of
bootstrap. -/
inductive InitOutcome where
  | exit (code : Nat) (stdoutLines : List String) (fd3Bytes : List Nat)
  | panicked (msg : String)
  | proceed
deriving DecidableEq

/-- The environment-inspection prefix of `init(resources)` from `lib.rs`:
read the parsed env record; if the version flag is set, assert the recce flag
is not set, print the version line and exit 0; otherwise if the recce flag is
set, serialize `resources` in binary form to file descriptor 3 and exit 0;
otherwise proceed to role determination and the rest of bootstrap. -/
def init_env_phase (envs : Envs) (res : Resources) : InitOutcome :=
  let version := envs.version.getD false
  let recce := envs.recce.getD false
  if version then
    if recce then .panicked "assertion failed: !recce"
    else .exit 0 ["constellation-lib"] []
  else if recce then .exit 0 [] (bincodeResources res)
  else .proceed

/-- The file-descriptor number of standard input. -/
def STDIN_FILENO : Nat := 0

/-- The loop body of `forward_input_fd(fd, writer, receiver)` from `lib.rs`,
run by the monitor\x27s stdin-forwarding thread over the sequence of
`ProcessInputEvent`s it receives.  State: the chunks written so far into the
worker\x27s stdin pipe, and whether the writer (the pipe\x27s write end) is
still open.  `wfail bytes` tells whether the `write_all` of `bytes` fails.
Per the source: a closed writer skips the event; an `Input(fd2, bytes)` event
with `fd2 = fd` writes non-empty `bytes` (dropping the writer on a failed
write) and on empty `bytes` drops the writer and breaks out of the loop; any
other event is `unreachable!()`. -/
def forward_input_loop (fd : Nat) (wfail : List Nat → Bool) :
    List ProcessInputEvent → List (List Nat) → Bool →
    PanicOr (List (List Nat) × Bool)
  | [], writes, w => .ok (writes, w)
  | ev :: rest, writes, w =>
    if !w then forward_input_loop fd wfail rest writes w
    else
      match ev with
      | .input fd2 bytes =>
        if fd2 = fd then
          if bytes ≠ [] then
            if wfail bytes then forward_input_loop fd wfail rest writes false
            else forward_input_loop fd wfail rest (writes ++ [bytes]) true
          else .ok (writes, false)
        else .panic "unreachable"
      | .kill => .panic "unreachable"

/-- The routing of one bridge-originated event in the monitor\x27s
`monitor-channel-to-bridge` loop in `monitor_process` from `lib.rs`:
`Input(fd, input)` with `fd = STDIN_FILENO` is sent on to the
stdin-forwarding thread, any other `Input` is `unimplemented!()`, and `Kill`
delivers SIGKILL to the worker instead of forwarding anything. -/
def monitor_route_input (ev : ProcessInputEvent) : PanicOr (Option ProcessInputEvent) :=
  match ev with
  | .input fd bytes =>
    if fd = STDIN_FILENO then .ok (some (.input fd bytes))
    else .panic "unimplemented"
  | .kill => .ok none

/-- The channel error taxonomy surfaced by `Receiver::recv`: the peer closed
its send half (`Exited`) or a transport failure (`Unknown`). -/
inductive ChannelError where
  | exited
  | unknown
deriving DecidableEq

/-- The `io::ErrorKind` values produced by the `Read` impl on `&Receiver<u8>`. -/
inductive IOErrorKind where
  | unexpectedEof
  | connectionReset
deriving DecidableEq

/-- The `for` loop of `<&Receiver<u8> as Read>::read` over buffer positions
`1..buf.len()`: `rem` positions remain, `tries` is the sequence of
`try_recv` outcomes the channel will yield (`none` = would block), `acc` the
bytes placed in the buffer so far.  The loop stops — returning `Ok` with the
bytes so far — when the buffer is full, when `try_recv` would block, or when
the received result is an error. -/
def read_loop : List (Option (Except ChannelError Nat)) → Nat → List Nat →
    List Nat
  | _, 0, acc => acc
  | [], _ + 1, acc => acc
  | none :: _, _ + 1, acc => acc
  | some (.error _) :: _, _ + 1, acc => acc
  | some (.ok t) :: rest, rem + 1, acc => read_loop rest rem (acc ++ [t])

/-- `<&Receiver<u8> as Read>::read(buf)` from `lib.rs`, with the channel\x27s
behaviour passed in: `first` is the result of the initial blocking
`recv().block()`, `tries` the subsequent `try_recv` outcomes.  An empty buffer
returns `Ok` with no bytes before any receive; a failed first recv maps
`Exited` to `UnexpectedEof` and `Unknown` to `ConnectionReset`; afterwards the
loop fills positions `1..buf.len()` and failures are not surfaced.  Returns
the bytes placed in the buffer; the Rust return value `Ok(n)` is their count. -/
def receiver_read (bufLen : Nat) (first : Except ChannelError Nat)
    (tries : List (Option (Except ChannelError Nat))) :
    Except IOErrorKind (List Nat) :=
  if bufLen = 0 then .ok []
  else
    match first with
    | .error .exited => .error .unexpectedEof
    | .error .unknown => .error .connectionReset
    | .ok b => .ok (read_loop tries (bufLen - 1) [b])

/-- A concrete bootstrapped global state used by witnesses: own pid 1:10,
bridge 1:9, native mode, default resources, empty endpoint registry. -/
def stInit : GlobalState :=
  { pid := some ⟨1, 10⟩, bridge := some ⟨1, 9⟩, deployed := some false,
    resources := some ⟨64, 1⟩, reactor := some ⟨[], []⟩ }

/-- A concrete un-bootstrapped global state used by witnesses: no once-cell set. -/
def stUninit : GlobalState :=
  { pid := none, bridge := none, deployed := none, resources := none, reactor := none }

/-- A concrete native-spawn world used by witnesses: two environment entries,
one of them a stale `CONSTELLATION_RESOURCES`, fork succeeds, child pid 1:30. -/
def nw0 : NativeWorld :=
  { argv := ["prog"], envv := [("PATH", "/bin"), ("CONSTELLATION_RESOURCES", "old")],
    forkOk := true, newPid := ⟨1, 30⟩ }

/-- A concrete native-spawn world where `fork` fails. -/
def nwForkFail : NativeWorld :=
  { argv := ["prog"], envv := [("PATH", "/bin")], forkOk := false, newPid := ⟨1, 30⟩ }

/-- A concrete deployed-spawn world whose scheduler accepts and allocates pid 9:90. -/
def dwOk : DeployWorld :=
  { argv := ["prog"], envv := [("PATH", "/bin")], schedReply := fun _ => .ok ⟨9, 90⟩ }

/-- A concrete deployed-spawn world whose scheduler replies no-capacity. -/
def dwNoCap : DeployWorld :=
  { argv := ["prog"], envv := [], schedReply := fun _ => .error .noCapacity }

/-- A concrete deployed-spawn world whose scheduler replies with a launch failure. -/
def dwExec : DeployWorld :=
  { argv := ["prog"], envv := [], schedReply := fun _ => .error .execFailed }

/-- Concrete world: native fork succeeds, scheduler accepts. -/
def wOk : World := { native := nw0, deploy := dwOk }

/-- Concrete world: native fork fails. -/
def wForkFail : World := { native := nwForkFail, deploy := dwOk }

/-- Concrete world: scheduler replies no-capacity. -/
def wNoCap : World := { native := nw0, deploy := dwNoCap }

/-- Concrete world: scheduler replies with a launch failure. -/
def wExec : World := { native := nw0, deploy := dwExec }

/-- Claim C1: for every pid `remote`, `Sender::<T>::new(remote)`
(resp. `Receiver::<T>::new(remote)`) in a bootstrapped process panics exactly
when `remote` equals the process\x27s own pid or a Sender (resp. Receiver) to
`remote` already exists, and otherwise returns a handle whose `remote_pid()`
is `remote`. -/
theorem claim1_endpoint_new (remote self : Pid) (st : GlobalState) (r : ReactorState)
    (hp : st.pid = some self) (hr : st.reactor = some r) :
    ((Sender.new remote st).isPanic = true ↔ remote = self ∨ remote.addr ∈ r.senders) ∧
    (∀ h st2, Sender.new remote st = .ok (h, st2) → h.remote_pid = remote) ∧
    ((Receiver.new remote st).isPanic = true ↔ remote = self ∨ remote.addr ∈ r.receivers) ∧
    (∀ h st2, Receiver.new remote st = .ok (h, st2) → h.remote_pid = remote) := by
  refine ⟨?_, ?_, ?_, ?_⟩
  · simp only [Sender.new, hp, hr, ChannelSender.new]
    by_cases h1 : remote = self
    · simp [h1, PanicOr.isPanic]
    · by_cases h2 : remote.addr ∈ r.senders
      · simp [h1, h2, PanicOr.isPanic]
      · simp [h1, h2, PanicOr.isPanic]
  · intro h st2 heq
    simp only [Sender.new, hp, hr, ChannelSender.new] at heq
    by_cases h1 : remote = self
    · simp [h1] at heq
    · by_cases h2 : remote.addr ∈ r.senders
      · simp [h1, h2] at heq
      · simp [h1, h2] at heq
        obtain ⟨hh, -⟩ := heq
        rw [← hh]
        rfl
  · simp only [Receiver.new, hp, hr, ChannelReceiver.new]
    by_cases h1 : remote = self
    · simp [h1, PanicOr.isPanic]
    · by_cases h2 : remote.addr ∈ r.receivers
      · simp [h1, h2, PanicOr.isPanic]
      · simp [h1, h2, PanicOr.isPanic]
  · intro h st2 heq
    simp only [Receiver.new, hp, hr, ChannelReceiver.new] at heq
    by_cases h1 : remote = self
    · simp [h1] at heq
    · by_cases h2 : remote.addr ∈ r.receivers
      · simp [h1, h2] at heq
      · simp [h1, h2] at heq
        obtain ⟨hh, -⟩ := heq
        rw [← hh]
        rfl

/-- Witness for claim C1 at a concrete bootstrapped state with an empty
endpoint registry and a remote distinct from the own pid. -/
theorem claim1_endpoint_new_witness :
    stInit.pid = some ⟨1, 10⟩ ∧ stInit.reactor = some ⟨[], []⟩ ∧
    (((Sender.new ⟨2, 20⟩ stInit).isPanic = true ↔
        (⟨2, 20⟩ : Pid) = ⟨1, 10⟩ ∨ (⟨2, 20⟩ : Pid).addr ∈ (⟨[], []⟩ : ReactorState).senders) ∧
      (∀ h st2, Sender.new ⟨2, 20⟩ stInit = .ok (h, st2) → h.remote_pid = ⟨2, 20⟩) ∧
      ((Receiver.new ⟨2, 20⟩ stInit).isPanic = true ↔
        (⟨2, 20⟩ : Pid) = ⟨1, 10⟩ ∨ (⟨2, 20⟩ : Pid).addr ∈ (⟨[], []⟩ : ReactorState).receivers) ∧
      (∀ h st2, Receiver.new ⟨2, 20⟩ stInit = .ok (h, st2) → h.remote_pid = ⟨2, 20⟩)) :=
  ⟨rfl, rfl, claim1_endpoint_new ⟨2, 20⟩ ⟨1, 10⟩ stInit ⟨[], []⟩ rfl rfl⟩

/-- Counterexample to claim C3.  The claim asserts that in both the native and
deployed paths the `block` flag\x27s value determines whether the call waits
for capacity or fails fast; but `spawn_native` binds the flag as `_block` and
never reads it, so at this concrete input the entire observable outcome of the
native path is identical for `block = true` and `block = false`. -/
theorem claim3_counterexample :
    spawn_native ⟨64, 1⟩ nw0 true = spawn_native ⟨64, 1⟩ nw0 false := rfl

/-- Claim C3 (amended): `spawn` invokes the spawn path with `block = true` and
`try_spawn` with `block = false`; the deployed path forwards the flag to the
scheduler inside the `FabricRequest` (the scheduler decides waiting), while
the native path ignores the flag entirely and behaves identically for both
values. -/
theorem claim3_block_flag :
    (∀ res dep w, try_spawn res dep w = spawn_inner res false dep w) ∧
    (∀ res w p, w.deploy.schedReply (deployRequest res w.deploy true) = .ok p →
      spawn res (some true) w =
        .ok { monitorWrites := [.spawnEv p], ret := .ok p, exec := none,
              request := some (deployRequest res w.deploy true) }) ∧
    (∀ res w b, (spawn_deployed res w b).request = some (deployRequest res w b) ∧
      (deployRequest res w b).block = b) ∧
    (∀ res w b b2, spawn_native res w b = spawn_native res w b2) := by
  refine ⟨fun res dep w => rfl, ?_, fun res w b => ⟨rfl, rfl⟩, fun res w b b2 => rfl⟩
  intro res w p hreply
  simp [spawn, spawn_inner, spawn_deployed, hreply]

/-- Witness for (amended) claim C3: at a concrete world whose scheduler
accepts with pid 9:90, `spawn` sends a request with `block = true` and
returns that pid. -/
theorem claim3_block_flag_witness :
    wOk.deploy.schedReply (deployRequest ⟨64, 1⟩ wOk.deploy true) = .ok ⟨9, 90⟩ ∧
    spawn ⟨64, 1⟩ (some true) wOk =
      .ok { monitorWrites := [.spawnEv ⟨9, 90⟩], ret := .ok ⟨9, 90⟩, exec := none,
            request := some (deployRequest ⟨64, 1⟩ wOk.deploy true) } :=
  ⟨rfl, claim3_block_flag.2.1 ⟨64, 1⟩ wOk ⟨9, 90⟩ rfl⟩

/-- Counterexample to claim C4.  The claim asserts `spawn` surfaces every
spawn failure as a `SpawnError` return value, never by panicking; but when
`fork` fails the native path panics via `expect("Fork failed")` instead of
returning an error. -/
theorem claim4_counterexample :
    spawn ⟨64, 1⟩ (some false) wForkFail = .panic "Fork failed" := rfl

/-- Claim C4 (amended): scheduler-reported failures are surfaced as return
values — `try_spawn` returns the `TrySpawnError`, and `spawn` returns the
converted `SpawnError` when the error is a launch failure — but `spawn`
panics (via the `try_into().unwrap()`) when the blocking reply is no-capacity,
and a native-path fork failure panics rather than being returned. -/
theorem claim4_spawn_error_surfacing :
    (∀ res w e, w.deploy.schedReply (deployRequest res w.deploy false) = .error e →
      ∃ o, try_spawn res (some true) w = .ok o ∧ o.ret = .error e) ∧
    (∀ res w, w.deploy.schedReply (deployRequest res w.deploy true) = .error .execFailed →
      ∃ o, spawn res (some true) w = .ok o ∧ o.ret = .error .execFailed) ∧
    (∀ res w, w.deploy.schedReply (deployRequest res w.deploy true) = .error .noCapacity →
      spawn res (some true) w = .panic unwrapErrMsg) ∧
    (∀ res w, w.native.forkOk = false → spawn res (some false) w = .panic "Fork failed") := by
  refine ⟨?_, ?_, ?_, ?_⟩
  · intro res w e hreply
    exact ⟨spawn_deployed res w.deploy false, rfl, by simp [spawn_deployed, hreply]⟩
  · intro res w hreply
    refine ⟨{ monitorWrites := [], ret := .error .execFailed, exec := none,
              request := some (deployRequest res w.deploy true) }, ?_, rfl⟩
    simp [spawn, spawn_inner, spawn_deployed, hreply, TrySpawnError.intoSpawnError]
  · intro res w hreply
    simp [spawn, spawn_inner, spawn_deployed, hreply, TrySpawnError.intoSpawnError]
  · intro res w hfork
    simp [spawn, spawn_inner, spawn_native, hfork]

/-- Witness for (amended) claim C4: at a concrete world whose scheduler
replies no-capacity, the blocking `spawn` panics in the unwrap of the
error conversion. -/
theorem claim4_spawn_error_surfacing_witness :
    wNoCap.deploy.schedReply (deployRequest ⟨64, 1⟩ wNoCap.deploy true) =
      .error .noCapacity ∧
    spawn ⟨64, 1⟩ (some true) wNoCap = .panic unwrapErrMsg :=
  ⟨rfl, claim4_spawn_error_surfacing.2.2.1 ⟨64, 1⟩ wNoCap rfl⟩

/-- Claim C5: a `Spawn(new_pid)` event is serialized to `MONITOR_FD` exactly
when a spawn succeeds — `spawn_native` writes it in the parent after forking
and returns `Ok(new_pid)`, and `spawn_deployed` writes it if and only if the
scheduler\x27s reply is `Ok(pid)`, for the pid the scheduler returned. -/
theorem claim5_spawn_event (res : Resources) (w : NativeWorld) (d : DeployWorld)
    (b : Bool) (hfork : w.forkOk = true) :
    (∃ o, spawn_native res w b = .ok o ∧
      o.monitorWrites = [.spawnEv w.newPid] ∧ o.ret = .ok w.newPid) ∧
    (∀ p, (spawn_deployed res d b).monitorWrites = [.spawnEv p] ↔
      d.schedReply (deployRequest res d b) = .ok p) := by
  constructor
  · refine ⟨{ monitorWrites := [.spawnEv w.newPid], ret := .ok w.newPid,
              exec := some { args := w.argv, vars := spawnVars w.envv res },
              request := none }, ?_, rfl, rfl⟩
    simp [spawn_native, hfork]
  · intro p
    rcases hr : d.schedReply (deployRequest res d b) with e | q
    · simp [spawn_deployed, hr]
    · simp [spawn_deployed, hr]

/-- Witness for claim C5 at concrete native and deployed worlds: the native
path emits `Spawn(1:30)`, and the deployed path emits `Spawn(9:90)` exactly
because the scheduler replied with that pid. -/
theorem claim5_spawn_event_witness :
    nw0.forkOk = true ∧
    ((∃ o, spawn_native ⟨64, 1⟩ nw0 true = .ok o ∧
        o.monitorWrites = [.spawnEv nw0.newPid] ∧ o.ret = .ok nw0.newPid) ∧
      (∀ p, (spawn_deployed ⟨64, 1⟩ dwOk true).monitorWrites = [.spawnEv p] ↔
        dwOk.schedReply (deployRequest ⟨64, 1⟩ dwOk true) = .ok p)) :=
  ⟨rfl, claim5_spawn_event ⟨64, 1⟩ nw0 dwOk true rfl⟩

/-- Claim C6: for every call to `spawn_native` with resources `res`, the
environment passed to `execve` in the child equals the parent\x27s environment
with every pre-existing `CONSTELLATION_RESOURCES` entry removed and a single
`CONSTELLATION_RESOURCES` entry appended whose value is the JSON serialization
of `res`, and the argv passed is the parent\x27s original argv. -/
theorem claim6_child_env (res : Resources) (w : NativeWorld) (b : Bool)
    (hfork : w.forkOk = true) :
    ∃ o, spawn_native res w b = .ok o ∧
      o.exec = some
        { args := w.argv
          vars := (w.envv.filter fun kv => kv.1 ≠ "CONSTELLATION_RESOURCES").map formatVar
            ++ [formatVar ("CONSTELLATION_RESOURCES", resourcesJson res)] } := by
  refine ⟨{ monitorWrites := [.spawnEv w.newPid], ret := .ok w.newPid,
            exec := some { args := w.argv, vars := spawnVars w.envv res },
            request := none }, ?_, ?_⟩
  · simp [spawn_native, hfork]
  · simp [spawnVars, List.map_append]

/-- Witness for claim C6 at a concrete world holding a stale
`CONSTELLATION_RESOURCES` entry: the child environment drops it and appends
the JSON of the requested resources, keeping the original argv. -/
theorem claim6_child_env_witness :
    nw0.forkOk = true ∧
    (∃ o, spawn_native ⟨64, 1⟩ nw0 true = .ok o ∧
      o.exec = some
        { args := nw0.argv
          vars := (nw0.envv.filter fun kv => kv.1 ≠ "CONSTELLATION_RESOURCES").map formatVar
            ++ [formatVar ("CONSTELLATION_RESOURCES", resourcesJson ⟨64, 1⟩)] }) :=
  ⟨rfl, claim6_child_env ⟨64, 1⟩ nw0 true rfl⟩

/-- Claim C2: in a process where bootstrap has not run (no once-cell set),
`pid()`, `resources()`, `Sender::new` and `Receiver::new` all panic with the
message telling the caller to call `init()` immediately inside `main()`. -/
theorem claim2_pre_init_rejected (st : GlobalState)
    (h1 : st.pid = none) (h2 : st.resources = none) :
    pid st = .panic initPanicMsg ∧ resources st = .panic initPanicMsg ∧
    (∀ remote, Sender.new remote st = .panic initPanicMsg) ∧
    (∀ remote, Receiver.new remote st = .panic initPanicMsg) := by
  refine ⟨?_, ?_, ?_, ?_⟩
  · simp [pid, h1]
  · simp [resources, h2]
  · intro remote
    simp [Sender.new, h1]
  · intro remote
    simp [Receiver.new, h1]

/-- Witness for claim C2 at the concrete un-bootstrapped state. -/
theorem claim2_pre_init_rejected_witness :
    stUninit.pid = none ∧ stUninit.resources = none ∧
    (pid stUninit = .panic initPanicMsg ∧ resources stUninit = .panic initPanicMsg ∧
      (∀ remote, Sender.new remote stUninit = .panic initPanicMsg) ∧
      (∀ remote, Receiver.new remote stUninit = .panic initPanicMsg)) :=
  ⟨rfl, rfl, claim2_pre_init_rejected stUninit rfl rfl⟩

/-- The `+=` aggregate is success exactly when both sides are success. -/
theorem ExitStatus.add_eq_success (a b : ExitStatus) :
    a.add b = .success ↔ a = .success ∧ b = .success := by
  cases a <;> simp [ExitStatus.add]

/-- A fold of `+=` over statuses is success exactly when the accumulator and
every folded status are success. -/
theorem foldl_add_success (cs : List ExitStatus) (a : ExitStatus) :
    cs.foldl ExitStatus.add a = .success ↔ a = .success ∧ ∀ c ∈ cs, c = .success := by
  induction cs generalizing a with
  | nil => simp
  | cons c cs ih =>
    simp [List.foldl_cons, ih, ExitStatus.add_eq_success, and_assoc]

/-- A bridge run in which every remaining worker exits folds the exit codes
into the aggregate and exits with the result. -/
theorem native_bridge_run_exits (codes : List ExitStatus) (pids : List Pid)
    (agg : ExitStatus) (h : pids.length = codes.length) :
    native_bridge_run (codes.map fun c => (0, ProcessOutputEvent.exitEv c)) pids agg
      = some (codes.foldl ExitStatus.add agg) := by
  induction codes generalizing pids agg with
  | nil =>
    have hp : pids = [] := List.length_eq_zero.mp h
    subst hp
    simp [native_bridge_run]
  | cons c cs ih =>
    cases pids with
    | nil => simp at h
    | cons p ps =>
      have hstep :
          native_bridge_run ((0, ProcessOutputEvent.exitEv c) ::
              cs.map fun c2 => (0, ProcessOutputEvent.exitEv c2)) (p :: ps) agg
            = native_bridge_run (cs.map fun c2 => (0, ProcessOutputEvent.exitEv c2)) ps
                (agg.add c) := rfl
      simp only [List.map_cons, List.foldl_cons, hstep]
      exact ih ps (agg.add c) (by simpa using h)

/-- Claim C7: the bridge event loop, on every received `Exit(code)` event,
folds the code into the running exit-status aggregate and removes that worker;
when the worker set empties it exits the process with the aggregate, and the
aggregate is success if and only if every child status was success. -/
theorem claim7_bridge_exit_aggregation (pids : List Pid) (codes : List ExitStatus)
    (h : pids.length = codes.length) :
    native_bridge_run (codes.map fun c => (0, ProcessOutputEvent.exitEv c)) pids .success
        = some (codes.foldl ExitStatus.add .success) ∧
    (codes.foldl ExitStatus.add .success = .success ↔ ∀ c ∈ codes, c = .success) ∧
    (∀ i code rest q qs agg,
      native_bridge_run ((i, ProcessOutputEvent.exitEv code) :: rest) (q :: qs) agg
        = native_bridge_run rest ((q :: qs).eraseIdx i) (agg.add code)) := by
  refine ⟨native_bridge_run_exits codes pids .success h, ?_,
    fun i code rest q qs agg => rfl⟩
  simpa using foldl_add_success codes .success

/-- Concrete worker list for the claim C7 witness. -/
def pids2 : List Pid := [⟨1, 10⟩, ⟨1, 11⟩]

/-- Concrete exit statuses for the claim C7 witness: one success, one failure. -/
def codes2 : List ExitStatus := [.success, .failure 3]

/-- Witness for claim C7 at two concrete workers, one failing with code 3:
the bridge exits with the first non-success, and the iff detects the failure. -/
theorem claim7_bridge_exit_aggregation_witness :
    pids2.length = codes2.length ∧
    (native_bridge_run (codes2.map fun c => (0, ProcessOutputEvent.exitEv c)) pids2 .success
        = some (codes2.foldl ExitStatus.add .success) ∧
      (codes2.foldl ExitStatus.add .success = .success ↔ ∀ c ∈ codes2, c = .success) ∧
      (∀ i code rest q qs agg,
        native_bridge_run ((i, ProcessOutputEvent.exitEv code) :: rest) (q :: qs) agg
          = native_bridge_run rest ((q :: qs).eraseIdx i) (agg.add code))) :=
  ⟨rfl, claim7_bridge_exit_aggregation pids2 codes2 rfl⟩

/-- Concrete parsed environment requesting a recce probe and no version print. -/
def envsRecce : Envs :=
  { version := none, recce := some true, format := none, deployFabric := false }

/-- Claim C8: when the environment requests a recce probe and not a version
print, `init(resources)` serializes `resources` in binary form to file
descriptor 3 and exits with status 0 before any user code or role setup runs
(the outcome is an exit, not a fall-through to role determination). -/
theorem claim8_recce_probe (envs : Envs) (res : Resources)
    (hrec : envs.recce = some true) (hver : envs.version ≠ some true) :
    init_env_phase envs res = .exit 0 [] (bincodeResources res) ∧
    init_env_phase envs res ≠ .proceed := by
  have hv : envs.version.getD false = false := by
    cases hx : envs.version with
    | none => rfl
    | some b =>
      cases b with
      | false => rfl
      | true => exact absurd hx hver
  constructor <;> simp [init_env_phase, hv, hrec]

/-- Witness for claim C8 at the concrete recce environment and resources
(64, 1). -/
theorem claim8_recce_probe_witness :
    envsRecce.recce = some true ∧ envsRecce.version ≠ some true ∧
    (init_env_phase envsRecce ⟨64, 1⟩ = .exit 0 [] (bincodeResources ⟨64, 1⟩) ∧
      init_env_phase envsRecce ⟨64, 1⟩ ≠ .proceed) :=
  ⟨rfl, by decide, claim8_recce_probe envsRecce ⟨64, 1⟩ rfl (by decide)⟩

/-- Running the stdin-forwarding loop over non-empty payloads followed by an
empty payload writes exactly the payloads and then closes the pipe, consuming
nothing further. -/
theorem forward_input_loop_writes (fd : Nat) (payloads : List (List Nat))
    (post : List ProcessInputEvent) (acc : List (List Nat))
    (h : ∀ p ∈ payloads, p ≠ []) :
    forward_input_loop fd (fun _ => false)
        (payloads.map (ProcessInputEvent.input fd) ++ .input fd [] :: post) acc true
      = .ok (acc ++ payloads, false) := by
  induction payloads generalizing acc with
  | nil => simp [forward_input_loop]
  | cons p ps ih =>
    have hp : p ≠ [] := h p (List.mem_cons_self p ps)
    simp only [List.map_cons, List.cons_append, forward_input_loop, Bool.not_true,
      Bool.false_eq_true, if_false, if_pos rfl, hp, ne_eq, not_false_eq_true, if_true,
      List.append_eq]
    rw [ih (acc ++ [p]) fun q hq => h q (List.mem_cons_of_mem p hq)]
    simp

/-- Claim C9: for every bridge-originated `Input(fd, bytes)` event with
`fd = stdin`, the monitor routes it to the stdin-forwarding thread, which
writes non-empty `bytes` into the worker\x27s stdin pipe and, on an empty
payload, closes the pipe and forwards no further input. -/
theorem claim9_stdin_forwarding (payloads : List (List Nat))
    (post : List ProcessInputEvent) (h : ∀ p ∈ payloads, p ≠ []) :
    forward_input_loop STDIN_FILENO (fun _ => false)
        (payloads.map (ProcessInputEvent.input STDIN_FILENO)
          ++ .input STDIN_FILENO [] :: post) [] true
      = .ok (payloads, false) ∧
    (∀ bytes, monitor_route_input (.input STDIN_FILENO bytes)
      = .ok (some (.input STDIN_FILENO bytes))) := by
  refine ⟨?_, fun bytes => by simp [monitor_route_input]⟩
  simpa using forward_input_loop_writes STDIN_FILENO payloads post [] h

/-- Witness for claim C9 at two concrete non-empty payloads followed by the
empty close payload and a trailing event that is never forwarded. -/
theorem claim9_stdin_forwarding_witness :
    (∀ p ∈ [[1], [2, 3]], p ≠ ([] : List Nat)) ∧
    (forward_input_loop STDIN_FILENO (fun _ => false)
        ([[1], [2, 3]].map (ProcessInputEvent.input STDIN_FILENO)
          ++ .input STDIN_FILENO [] :: [.kill]) [] true
      = .ok ([[1], [2, 3]], false) ∧
    (∀ bytes, monitor_route_input (.input STDIN_FILENO bytes)
      = .ok (some (.input STDIN_FILENO bytes)))) :=
  ⟨by decide, claim9_stdin_forwarding [[1], [2, 3]] [.kill] (by decide)⟩

/-- The bytes accumulated so far are a prefix of what the read loop returns. -/
theorem read_loop_prefix (tries : List (Option (Except ChannelError Nat)))
    (rem : Nat) (acc : List Nat) :
    ∃ tail, read_loop tries rem acc = acc ++ tail := by
  induction tries generalizing rem acc with
  | nil =>
    cases rem with
    | zero => exact ⟨[], by simp [read_loop]⟩
    | succ n => exact ⟨[], by simp [read_loop]⟩
  | cons t ts ih =>
    cases rem with
    | zero => exact ⟨[], by simp [read_loop]⟩
    | succ n =>
      match t with
      | none => exact ⟨[], by simp [read_loop]⟩
      | some (.error e) => exact ⟨[], by simp [read_loop]⟩
      | some (.ok v) =>
        obtain ⟨tail, htail⟩ := ih n (acc ++ [v])
        exact ⟨v :: tail, by simp [read_loop, htail]⟩

/-- The read loop consumes a run of successful `try_recv` results and stops at
the first would-block or error, keeping the bytes read so far. -/
theorem read_loop_stops (oks : List Nat) (bad : Option (Except ChannelError Nat))
    (rest : List (Option (Except ChannelError Nat))) (rem : Nat) (acc : List Nat)
    (hbad : bad = none ∨ ∃ e, bad = some (.error e)) (hlen : oks.length ≤ rem) :
    read_loop (oks.map (fun t => some (.ok t)) ++ bad :: rest) rem acc
      = acc ++ oks := by
  induction oks generalizing rem acc with
  | nil =>
    cases rem with
    | zero => simp [read_loop]
    | succ n =>
      rcases hbad with hb | ⟨e, hb⟩ <;> subst hb <;> simp [read_loop]
  | cons t ts ih =>
    cases rem with
    | zero => simp at hlen
    | succ n =>
      simp only [List.map_cons, List.cons_append, read_loop, List.append_eq]
      rw [ih n (acc ++ [t]) (by simpa using hlen)]
      simp

/-- Claim C10: the `io::Read` impl on `&Receiver<u8>` returns `Ok` with no
bytes on an empty buffer without receiving; maps a failed first receive to
`UnexpectedEof` (channel `Exited`) or `ConnectionReset` (channel `Unknown`);
and once at least one byte is in the buffer, a later failure or would-block is
not surfaced — the call returns `Ok` with the bytes read so far. -/
theorem claim10_receiver_read :
    (∀ first tries, receiver_read 0 first tries = .ok []) ∧
    (∀ n tries, receiver_read (n + 1) (.error .exited) tries = .error .unexpectedEof) ∧
    (∀ n tries, receiver_read (n + 1) (.error .unknown) tries = .error .connectionReset) ∧
    (∀ n b tries, ∃ bs, receiver_read (n + 1) (.ok b) tries = .ok (b :: bs)) ∧
    (∀ n b oks bad rest, (bad = none ∨ ∃ e, bad = some (.error e)) → oks.length ≤ n →
      receiver_read (n + 1) (.ok b) (oks.map (fun t => some (.ok t)) ++ bad :: rest)
        = .ok (b :: oks)) := by
  refine ⟨fun first tries => rfl, fun n tries => rfl, fun n tries => rfl, ?_, ?_⟩
  · intro n b tries
    obtain ⟨tail, htail⟩ := read_loop_prefix tries n [b]
    exact ⟨tail, by simp [receiver_read, htail]⟩
  · intro n b oks bad rest hbad hlen
    have hstop := read_loop_stops oks bad rest n [b] hbad hlen
    simp [receiver_read, hstop]

/-- Witness for claim C10: a four-byte buffer whose channel yields byte 5,
then byte 7, then would-block — the read returns `Ok` with the two bytes. -/
theorem claim10_receiver_read_witness :
    ((none : Option (Except ChannelError Nat)) = none ∨
      ∃ e, (none : Option (Except ChannelError Nat)) = some (.error e)) ∧
    ([7] : List Nat).length ≤ 3 ∧
    receiver_read 4 (.ok 5) ([7].map (fun t => some (.ok t)) ++ none :: [])
      = .ok [5, 7] :=
  ⟨Or.inl rfl, by decide,
    claim10_receiver_read.2.2.2.2 3 5 [7] none [] (Or.inl rfl) (by decide)⟩

end Constellation
